import Mathlib

/-!
Verification of the ProfileTransferUtil repository against its specification.

The Python sources are shallowly embedded as Lean definitions.  External
effects (subprocess creation, directory creation) are made explicit as an
effect trace, and environment-dependent queries (file existence, executable
lookup, subprocess outcomes) are passed in as parameters, so that every
function of the source becomes a total, executable Lean function.
-/

namespace ProfileTransferUtil

/-- Observable external effects performed by the tool layer: spawning a
subprocess from an argument list, spawning a shell command line, and
creating a directory tree (the os.makedirs call). -/
inductive Effect where
  | spawn (cmd : List String) : Effect
  | spawnShell (cmd : String) : Effect
  | makeDirs (path : String) : Effect
deriving DecidableEq

/-- Result of handling one dispatched task in the as_completed loop: either
the exit code returned by the task, or the message of an unexpected fault
raised by the task and caught per-task. -/
inductive TaskResult where
  | exitCode (code : Int) : TaskResult
  | fault (msg : String) : TaskResult
deriving DecidableEq

/-- Embeds robocopy_runner.quote_path: wraps a path in double quotes. -/
def quote_path (path : String) : String := "\"" ++ path ++ "\""

/-- Embeds os.path.join for the two-argument uses in this repository:
Windows path join by a backslash separator.  The corner cases of the real
os.path.join (absolute second argument, trailing separators) are not
exercised by any claim. -/
def joinPath (a b : String) : String := a ++ "\\" ++ b

/-- Embeds os.path.normpath as the identity; path normalisation is
irrelevant to every claim, which only observe whether a makedirs effect
happens at all. -/
def normpath (p : String) : String := p

/-- Embeds robocopy_runner.build_robocopy_command.  The Python None
defaults are represented by the empty list: Python tests each optional
list for truthiness, which is falsity exactly on None and on the empty
list. -/
def build_robocopy_command (source destination : String)
    (baseOptions excludeDirs excludeFiles : List String) : List String :=
  ["robocopy", quote_path source, quote_path destination]
    ++ baseOptions
    ++ (if excludeDirs.isEmpty then [] else "/XD" :: excludeDirs.map quote_path)
    ++ (if excludeFiles.isEmpty then [] else "/XF" :: excludeFiles.map quote_path)

/-- Embeds robocopy_runner.run_robocopy.  The parameter launch models the
subprocess environment: Except.ok is a started process together with its
final exit code, Except.error is any exception raised while creating or
waiting on the process (FileNotFoundError, PermissionError, ...), which
the source catches and converts to the sentinel -1.  In a dry run the
command is only logged: no effect is produced and 0 is returned. -/
def run_robocopy (robocopyOptions : List String) (source destination : String)
    (additionalOptions excludeDirs excludeFiles : List String) (dryRun : Bool)
    (launch : List String → Except String Int) : Int × List Effect :=
  let cmd := build_robocopy_command source destination
    (robocopyOptions ++ additionalOptions) excludeDirs excludeFiles
  if dryRun then (0, [])
  else
    match launch cmd with
    | Except.ok code => (code, [Effect.spawn cmd])
    | Except.error _ => (-1, [Effect.spawn cmd])

/-- Embeds robocopy_runner.robocopy_folder: a thin wrapper forwarding to
run_robocopy with defaulted optional arguments made explicit. -/
def robocopy_folder (robocopyOptions : List String) (source destination : String)
    (excludeFiles excludeDirs options : List String) (dryRun : Bool)
    (launch : List String → Except String Int) : Int × List Effect :=
  run_robocopy robocopyOptions source destination options excludeDirs excludeFiles
    dryRun launch

/-- Embeds the copy_single_subdir closure inside
robocopy_runner.copy_appdata_subdirs.  The mkdirs parameter models
os.makedirs on the destination subfolder: Except.error is an OSError
raised there, which is NOT caught inside the task and therefore escapes
as the task fault seen by the as_completed loop.  In a dry run the
makedirs call is skipped. -/
def copy_single_subdir (robocopyOptions : List String)
    (sourceRoot destRoot rel : String) (excludeDirs : List String) (dryRun : Bool)
    (mkdirs : String → Except String Unit)
    (launch : List String → Except String Int) :
    Except String (Int × List Effect) :=
  let src := joinPath sourceRoot rel
  let dst := joinPath destRoot rel
  if dryRun then
    Except.ok (robocopy_folder robocopyOptions src dst [] excludeDirs [] true launch)
  else
    match mkdirs dst with
    | Except.error e => Except.error e
    | Except.ok _ =>
      let r := robocopy_folder robocopyOptions src dst [] excludeDirs [] false launch
      Except.ok (r.1, Effect.makeDirs dst :: r.2)

/-- Embeds the per-future handling of the as_completed loops: future.result
either hands back the exit code of the task or re-raises the fault the
task raised, which the loop catches per task and records against the
identity entry stored for that future. -/
def collectTask (outcome : String → Except String Int) (t : String) :
    String × TaskResult :=
  match outcome t with
  | Except.ok code => (t, TaskResult.exitCode code)
  | Except.error e => (t, TaskResult.fault e)

/-- Embeds the as_completed collection loop shared by
robocopy_runner.copy_appdata_subdirs and reg_exporter.reg_export: one
future is submitted per entry of the task list, and the loop handles each
completed future exactly once, in an arbitrary completion order, looking
the identity of the task up in the futures dictionary.  The completion
order is modelled by the order parameter, a list of indices into the task
list. -/
def as_completed_collect (tasks : List String)
    (outcome : String → Except String Int) (order : List Nat) :
    List (String × TaskResult) :=
  order.filterMap (fun i => (tasks.get? i).map (collectTask outcome))

/-- Embeds the max_workers expression of copy_appdata_subdirs:
min(6, len(subdirs)), with no lower bound. -/
def copyAppdataMaxWorkers (subdirs : List String) : Nat := min 6 subdirs.length

/-- Embeds the task outcome function dispatched by copy_appdata_subdirs:
each subfolder entry runs copy_single_subdir and yields its exit code, or
the fault copy_single_subdir raised. -/
def copySubdirTaskOutcome (robocopyOptions : List String)
    (sourceRoot destRoot : String) (excludeDirs : List String) (dryRun : Bool)
    (mkdirs : String → Except String Unit)
    (launch : List String → Except String Int) : String → Except String Int :=
  fun rel =>
    (copy_single_subdir robocopyOptions sourceRoot destRoot rel excludeDirs
      dryRun mkdirs launch).map Prod.fst

/-- Embeds robocopy_runner.copy_appdata_subdirs.  ThreadPoolExecutor
raises ValueError when its max_workers argument is not positive, which
happens here exactly when the subfolder list is empty; the Except.error
case models that uncaught exception.  Otherwise the call produces one
collected entry per completed future plus the trace of effects the tasks
performed. -/
def copy_appdata_subdirs (robocopyOptions : List String)
    (sourceRoot destRoot : String) (subdirs : List String)
    (excludeDirs : List String) (dryRun : Bool)
    (mkdirs : String → Except String Unit)
    (launch : List String → Except String Int) (order : List Nat) :
    Except String (List (String × TaskResult) × List Effect) :=
  if copyAppdataMaxWorkers subdirs = 0 then
    Except.error "ValueError: max_workers must be greater than 0"
  else
    Except.ok
      (as_completed_collect subdirs
        (copySubdirTaskOutcome robocopyOptions sourceRoot destRoot excludeDirs
          dryRun mkdirs launch) order,
       subdirs.flatMap (fun rel =>
        match copy_single_subdir robocopyOptions sourceRoot destRoot rel
            excludeDirs dryRun mkdirs launch with
        | Except.ok r => r.2
        | Except.error _ => []))

/-- Recursion worker for the str.replace semantics.  The fuel argument
only forces structural termination: it starts at the length of the
scanned text and every step consumes at least one character, so the fuel
never runs out on the inputs pyReplace supplies. -/
def pyReplaceFuel : Nat → List Char → List Char → List Char → List Char
  | 0, s, _, _ => s
  | _ + 1, [], _, _ => []
  | fuel + 1, c :: rest, pat, repl =>
    if pat ≠ [] ∧ pat.isPrefixOf (c :: rest) then
      repl ++ pyReplaceFuel fuel ((c :: rest).drop pat.length) pat repl
    else
      c :: pyReplaceFuel fuel rest pat repl

/-- Embeds the semantics of str.replace used in export_single_path: every
non-overlapping occurrence of the pattern, scanning left to right, is
replaced by the substitute. -/
def pyReplace (s pat repl : List Char) : List Char :=
  pyReplaceFuel s.length s pat repl

/-- Embeds the base_name computation of the export_single_path closure in
reg_exporter.reg_export: strip every occurrence of the text HKEY_, then
replace each backslash, slash, colon and space by an underscore. -/
def export_base_name (singlePath : String) : String :=
  String.mk (pyReplace (pyReplace (pyReplace (pyReplace (pyReplace
    singlePath.data "HKEY_".data "".data)
    "\\".data "_".data) "/".data "_".data) ":".data "_".data) " ".data "_".data)

/-- Embeds the output filename derived by export_single_path: the
transformed base name with the .reg suffix appended. -/
def export_file_name (singlePath : String) : String :=
  export_base_name singlePath ++ ".reg"

/-- Embeds the full destination file path os.path.join(dst_directory,
base_name + .reg) computed by export_single_path. -/
def export_single_path_destination (dstDirectory singlePath : String) : String :=
  joinPath dstDirectory (export_file_name singlePath)

/-- Embeds the command line assembled by reg_exporter.run_regexport: the
bare reg export invocation, wrapped in a PsExec invocation when a PsExec
path was resolved. -/
def regexportCommand (source destinationFile : String)
    (psexecPath : Option String) : String :=
  let regCmd := "reg export \"" ++ source ++ "\" \"" ++ destinationFile ++ "\" /y"
  match psexecPath with
  | some p => "\"" ++ p ++ "\" -i 1 -h cmd /c \"" ++ regCmd ++ "\""
  | none => regCmd

/-- Embeds reg_exporter.run_regexport.  The shellLaunch parameter models
subprocess.Popen with shell true: Except.ok is a completed process with
its exit code, Except.error any exception raised while launching or
waiting, which the source catches (FileNotFoundError and the catch-all
both return -1).  In a dry run the command is only logged: no effect is
produced and 0 is returned. -/
def run_regexport (source destinationFile : String) (dryRun : Bool)
    (psexecPath : Option String)
    (shellLaunch : String → Except String Int) : Int × List Effect :=
  let cmd := regexportCommand source destinationFile psexecPath
  if dryRun then (0, [])
  else
    match shellLaunch cmd with
    | Except.ok code => (code, [Effect.spawnShell cmd])
    | Except.error _ => (-1, [Effect.spawnShell cmd])

/-- Embeds the PsExec resolution block at the top of
reg_exporter.reg_export.  The fileOk parameter models the
os.path.exists and os.path.isfile test on the custom path; the
foundPsexec parameter models the result of find_executable on PsExec.exe
over the current directory and the PATH (an environment query).
Except.error marks the two critical-log-and-return branches. -/
def resolvePsexec (usePsexec : Bool) (psexecCustomPath : Option String)
    (fileOk : String → Bool) (foundPsexec : Option String) :
    Except Unit (Option String) :=
  if usePsexec then
    match psexecCustomPath with
    | some p => if fileOk p then Except.ok (some p) else Except.error ()
    | none =>
      match foundPsexec with
      | some p => Except.ok (some p)
      | none => Except.error ()
  else
    Except.ok none

/-- Embeds the max_workers expression of reg_export:
min(6, len(src)) if src else 1. -/
def regExportMaxWorkers (src : List String) : Nat :=
  if src.isEmpty then 1 else min 6 src.length

/-- Embeds the task outcome function dispatched by reg_export: each key
runs run_regexport on its derived destination file.  run_regexport is
total (it converts every launch failure to -1), so the task itself never
raises: the outcome is always Except.ok. -/
def regExportTaskOutcome (dstDirectory : String) (dryRun : Bool)
    (psexecPath : Option String)
    (shellLaunch : String → Except String Int) : String → Except String Int :=
  fun p =>
    Except.ok (run_regexport p (export_single_path_destination dstDirectory p)
      dryRun psexecPath shellLaunch).1

/-- Overall outcome of reg_exporter.reg_export: aborted is the early
critical-log return when PsExec cannot be resolved, poolError would be a
ValueError from ThreadPoolExecutor (max_workers not positive), and
completed carries the collected per-task entries and the effect trace. -/
inductive RegExportResult where
  | aborted : RegExportResult
  | poolError : RegExportResult
  | completed (results : List (String × TaskResult)) (effects : List Effect) :
      RegExportResult
deriving DecidableEq

/-- Embeds reg_exporter.reg_export.  Note the order of operations in the
source: the PsExec resolution happens first and aborts the stage on
failure; then os.makedirs on the normalised destination directory runs
UNCONDITIONALLY, before and regardless of the dry-run flag; then the
worker pool is created and the export tasks are dispatched. -/
def reg_export (src : List String) (dstDirectory : String)
    (usePsexec : Bool) (dryRun : Bool) (psexecCustomPath : Option String)
    (fileOk : String → Bool) (foundPsexec : Option String)
    (shellLaunch : String → Except String Int) (order : List Nat) :
    RegExportResult :=
  match resolvePsexec usePsexec psexecCustomPath fileOk foundPsexec with
  | Except.error _ => RegExportResult.aborted
  | Except.ok psexecPath =>
    if regExportMaxWorkers src = 0 then RegExportResult.poolError
    else
      RegExportResult.completed
        (as_completed_collect src
          (regExportTaskOutcome dstDirectory dryRun psexecPath shellLaunch) order)
        (Effect.makeDirs (normpath dstDirectory) ::
          src.flatMap (fun p =>
            (run_regexport p (export_single_path_destination dstDirectory p)
              dryRun psexecPath shellLaunch).2))

/-- Embeds the registry-export stage invocation in main.main, which reads
reg_export(REGISTRY_INCLUDES, destination, dry_run): the arguments are
positional, so the dry-run flag of the run is bound to the use_psexec
parameter of reg_export, while the dry_run and psexec_custom_path
parameters keep their defaults False and None. -/
def main_reg_export_stage (registryIncludes : List String) (destination : String)
    (dryRunFlag : Bool) (fileOk : String → Bool) (foundPsexec : Option String)
    (shellLaunch : String → Except String Int) (order : List Nat) :
    RegExportResult :=
  reg_export registryIncludes destination dryRunFlag false none fileOk
    foundPsexec shellLaunch order

/-- Embeds unc_utils.check_unc_access: a direct os.path.exists probe on
the UNC path, with the filesystem modelled by the existsFn parameter. -/
def check_unc_access (existsFn : String → Bool) (uncPath : String) : Bool :=
  existsFn uncPath

/-- Embeds the polling loop of unc_utils.prompt_user_to_authenticate.
One iteration per elapsed second k: first proc.poll is consulted (the
exited parameter tells whether the Explorer process has terminated by
second k), returning True on termination; then the timeout test
elapsed at least timeout returns False; otherwise sleep one second and
loop.  The loop decides within timeout + 1 iterations, which is the fuel
the wrapper supplies. -/
def explorerWaitLoop (exited : Nat → Bool) (timeout : Nat) :
    Nat → Nat → Bool
  | _, 0 => false
  | k, fuel + 1 =>
    if exited k then true
    else if timeout ≤ k then false
    else explorerWaitLoop exited timeout (k + 1) fuel

/-- Embeds unc_utils.prompt_user_to_authenticate.  The launchOk parameter
models whether subprocess.Popen on the explorer command raised: on an
exception the function reports failure immediately, without any retry;
otherwise it enters the polling loop on the process state.  Note that the
source never consults the UNC path inside this function: it watches the
Explorer process only. -/
def prompt_user_to_authenticate (launchOk : Bool) (exited : Nat → Bool)
    (timeout : Nat) : Bool :=
  if launchOk then explorerWaitLoop exited timeout 0 (timeout + 1) else false

/-- Follows the spec text, not the source, for comparison with
prompt_user_to_authenticate: per the spec the gate, after launching the
trigger, polls the TARGET PATH existence at a fixed interval and succeeds
exactly when the path becomes reachable at some poll before the timeout
elapses, failing on timeout or when the trigger fails to launch. -/
def prompt_success_spec (launchOk : Bool) (reachable : Nat → Bool)
    (timeout : Nat) : Bool :=
  launchOk && (List.range (timeout + 1)).any reachable

/-- Outcome of opening the Zone.Identifier alternate data stream of a
file, the three cases distinguished by has_zone_identifier_ads. -/
inductive AdsOpen where
  | opened : AdsOpen
  | notFound : AdsOpen
  | osError : AdsOpen
deriving DecidableEq

/-- Outcome of the fallback cmd del command in the _remove_ads closure:
exit code 0 with a not-found message on stderr, exit code 0 otherwise,
a non-zero exit code, or an exception from subprocess.run itself. -/
inductive DelResult where
  | okRemoved : DelResult
  | okNotFoundMsg : DelResult
  | failedNonzero : DelResult
  | subprocessError : DelResult
deriving DecidableEq

/-- Behaviour of the removal attempt on one file, as scripted by the
environment: os.remove succeeds, os.remove raises FileNotFoundError, or
os.remove raises another OSError and the del fallback runs with the given
result. -/
inductive RemovalBehavior where
  | plainSuccess : RemovalBehavior
  | plainNotFound : RemovalBehavior
  | fallbackDel (d : DelResult) : RemovalBehavior
deriving DecidableEq

/-- One file of the scanned Desktop tree: its basename as handed out by
os.walk, whether the Zone.Identifier stream currently exists, whether
opening that stream raises a non-FileNotFound OSError (for example a
permission error), and the scripted behaviour of a removal attempt. -/
structure MotwFile where
  name : String
  ads : Bool
  openFault : Bool
  removal : RemovalBehavior
deriving DecidableEq

/-- Embeds the open call of remove_motw.has_zone_identifier_ads on the
Zone.Identifier stream path of a file: success when the stream exists and
is readable, FileNotFoundError when it does not exist, and another
OSError when the scripted open fault fires. -/
def open_zone_identifier (f : MotwFile) : AdsOpen :=
  if f.ads then
    (if f.openFault then AdsOpen.osError else AdsOpen.opened)
  else AdsOpen.notFound

/-- Embeds remove_motw.has_zone_identifier_ads: True on a successful
open, False on FileNotFoundError, and False on any other OSError. -/
def has_zone_identifier_ads (f : MotwFile) : Bool :=
  match open_zone_identifier f with
  | AdsOpen.opened => true
  | AdsOpen.notFound => false
  | AdsOpen.osError => false

/-- Per-file outcome of one scan pass, matching the distinct log lines of
remove_mark_of_the_web_from_shortcuts: extension not handled, marker
reported absent by the presence test, marker removed (either via
os.remove or via the del fallback), removal hit an already-absent stream,
or removal genuinely failed. -/
inductive FileReport where
  | notShortcut : FileReport
  | markerAbsent : FileReport
  | removedOk : FileReport
  | removedNotFound : FileReport
  | removeFailed : FileReport
deriving DecidableEq

/-- Tells which per-file outcomes are emitted through logger.error in the
source; every other outcome is logged at info level. -/
def reportLogsError : FileReport → Bool
  | FileReport.removeFailed => true
  | _ => false

/-- Embeds the _remove_ads closure of
remove_mark_of_the_web_from_shortcuts, mapping the scripted removal
behaviour of a file to the reported outcome and the resulting presence of
the Zone.Identifier stream: a successful os.remove or a del fallback
exiting 0 without a not-found message leaves the stream removed; a failed
fallback leaves it as it was. -/
def removeAdsResult (f : MotwFile) : FileReport × Bool :=
  match f.removal with
  | RemovalBehavior.plainSuccess => (FileReport.removedOk, false)
  | RemovalBehavior.plainNotFound => (FileReport.removedNotFound, false)
  | RemovalBehavior.fallbackDel DelResult.okRemoved => (FileReport.removedOk, false)
  | RemovalBehavior.fallbackDel DelResult.okNotFoundMsg =>
      (FileReport.removedNotFound, false)
  | RemovalBehavior.fallbackDel DelResult.failedNonzero =>
      (FileReport.removeFailed, f.ads)
  | RemovalBehavior.fallbackDel DelResult.subprocessError =>
      (FileReport.removeFailed, f.ads)

/-- Embeds os.path.splitext restricted to basenames as os.walk hands them
out, returning the extension part: the suffix from the last dot on,
except that a dot with only dots before it in the name starts no
extension. -/
def splitext_ext (name : List Char) : List Char :=
  let rev := name.reverse
  let extRevLen := (rev.takeWhile (fun c => c ≠ '.')).length
  if extRevLen = rev.length then []
  else
    let before := name.take (name.length - extRevLen - 1)
    if before.any (fun c => c ≠ '.') then
      name.drop (name.length - extRevLen - 1)
    else []

/-- Embeds the extension filter of the scan: the splitext extension of
the basename, ASCII-lowercased, must be .url or .lnk. -/
def shortcut_ext_check (fileName : String) : Bool :=
  let ext := (splitext_ext fileName.data).map Char.toLower
  (ext == ".url".data) || (ext == ".lnk".data)

/-- Embeds the per-file body of the walk loop in
remove_mark_of_the_web_from_shortcuts: extension filter first, then the
marker presence test, then the removal attempt only when the test
reported the marker present.  Returns the reported outcome and the file
state afterwards. -/
def scan_file (f : MotwFile) : FileReport × MotwFile :=
  if shortcut_ext_check f.name then
    if has_zone_identifier_ads f then
      let r := removeAdsResult f
      (r.1, { f with ads := r.2 })
    else (FileReport.markerAbsent, f)
  else (FileReport.notShortcut, f)

/-- Embeds remove_motw.remove_mark_of_the_web_from_shortcuts over a
directory modelled as the list of files the os.walk traversal yields, in
walk order.  When the Desktop directory does not exist the function
returns immediately having scanned nothing. -/
def remove_mark_of_the_web_from_shortcuts (dirExists : Bool)
    (files : List MotwFile) : List FileReport × List MotwFile :=
  if dirExists then
    (files.map (fun f => (scan_file f).1), files.map (fun f => (scan_file f).2))
  else ([], files)

/-- C7: the registry-key-to-filename transform is a deterministic pure
function of the key path: HKEY_CURRENT_USER\Software\Test maps to
CURRENT_USER_Software_Test.reg (illegal characters replaced with
underscores, the HKEY_ text stripped, the .reg suffix appended), and two
applications of the transform to the same input give the same
filename. -/
theorem C7_filename_transform :
    export_file_name "HKEY_CURRENT_USER\\Software\\Test" =
      "CURRENT_USER_Software_Test.reg" ∧
    ∀ p : String, export_file_name p = export_file_name p :=
  ⟨by rfl, fun _ => rfl⟩

/-- C8 counterexample: the transform is not injective.  The two distinct
key paths HKEY_CURRENT_USER\Software\Test and
HKEY_CURRENT_USER/Software/Test, which differ only in their separator
character, derive the same export filename, refuting the claim that
distinct key paths always map to distinct filenames. -/
theorem C8_collision_counterexample :
    ("HKEY_CURRENT_USER\\Software\\Test" : String) ≠
      "HKEY_CURRENT_USER/Software/Test" ∧
    export_file_name "HKEY_CURRENT_USER\\Software\\Test" =
      export_file_name "HKEY_CURRENT_USER/Software/Test" :=
  ⟨by decide, by rfl⟩

/-- C8 amended: the transform is deterministic, but it is NOT injective:
there exist distinct registry key paths whose derived output filenames
coincide, because backslash, slash, colon and space are all collapsed to
the same underscore substitute and the code performs no collision
detection. -/
theorem C8_amended_not_injective :
    (∀ p : String, export_file_name p = export_file_name p) ∧
    ∃ p q : String, p ≠ q ∧ export_file_name p = export_file_name q :=
  ⟨fun _ => rfl, "HKEY_A\\B", "HKEY_A/B", by decide, by rfl⟩

/-- C1 counterexample: a dry-run invocation of reg_export still creates
the export destination directory.  With the dry-run flag set, a single
key and no PsExec use, the call completes with exit code 0 and an effect
trace that contains the makeDirs write on the destination directory,
refuting the claim that reg_export performs no filesystem writes in a
dry run. -/
theorem C1_dryrun_makedirs_counterexample :
    reg_export ["HKEY_CURRENT_USER\\Software\\Test"] "D:\\RegExports"
      false true none (fun _ => false) none (fun _ => Except.error "unused") [0] =
    RegExportResult.completed
      [("HKEY_CURRENT_USER\\Software\\Test", TaskResult.exitCode 0)]
      [Effect.makeDirs "D:\\RegExports"] := by
  rfl

/-- C2: evaluation of the code at the failing input.  The sequencer calls
reg_export(REGISTRY_INCLUDES, destination, dry_run) positionally, binding
the dry-run flag to the use_psexec parameter.  First conjunct: with the
dry-run flag off and PsExec nowhere to be found, the stage is NOT
aborted and the bare reg export command is spawned unprivileged.  Second
conjunct: with the dry-run flag on, the stage actually spawns a real
(PsExec-wrapped) command, because the dry_run parameter of reg_export
stays at its default False. -/
theorem C2_sequencer_psexec_divergence :
    main_reg_export_stage ["HKEY_CURRENT_USER\\Software\\Test"] "D:\\RegExports"
        false (fun _ => false) none (fun _ => Except.ok 0) [0] =
      RegExportResult.completed
        [("HKEY_CURRENT_USER\\Software\\Test", TaskResult.exitCode 0)]
        [Effect.makeDirs "D:\\RegExports",
         Effect.spawnShell
           "reg export \"HKEY_CURRENT_USER\\Software\\Test\" \"D:\\RegExports\\CURRENT_USER_Software_Test.reg\" /y"] ∧
    main_reg_export_stage ["HKEY_CURRENT_USER\\Software\\Test"] "D:\\RegExports"
        true (fun _ => false) (some "C:\\PsExec.exe") (fun _ => Except.ok 0) [0] =
      RegExportResult.completed
        [("HKEY_CURRENT_USER\\Software\\Test", TaskResult.exitCode 0)]
        [Effect.makeDirs "D:\\RegExports",
         Effect.spawnShell
           "\"C:\\PsExec.exe\" -i 1 -h cmd /c \"reg export \"HKEY_CURRENT_USER\\Software\\Test\" \"D:\\RegExports\\CURRENT_USER_Software_Test.reg\" /y\""] :=
  ⟨by rfl, by rfl⟩

/-- C3 counterexample: the claim that the worker pool is at least 1 even
for an empty task set, so that dispatch never fails on it, is refuted by
copy_appdata_subdirs: on the empty subfolder list its max_workers
expression evaluates to 0 and ThreadPoolExecutor rejects the pool, so the
dispatch call fails with a ValueError instead of running. -/
theorem C3_empty_pool_counterexample :
    copy_appdata_subdirs [] "S" "D" [] [] false (fun _ => Except.ok ())
        (fun _ => Except.ok 0) [] =
      Except.error "ValueError: max_workers must be greater than 0" ∧
    copyAppdataMaxWorkers [] = 0 :=
  ⟨by rfl, by rfl⟩

theorem copySubdirTaskOutcome_dry (opts : List String) (sr dr : String)
    (xd : List String) (mkdirs : String → Except String Unit)
    (launch : List String → Except String Int) :
    copySubdirTaskOutcome opts sr dr xd true mkdirs launch =
      fun _ => Except.ok 0 :=
  funext fun _ => rfl

theorem regExportTaskOutcome_dry (dstDir : String) (pp : Option String)
    (sl : String → Except String Int) :
    regExportTaskOutcome dstDir true pp sl = fun _ => Except.ok 0 :=
  funext fun _ => rfl

theorem flatMap_nil_of_forall {α β : Type} (l : List α) (f : α → List β)
    (h : ∀ x, f x = []) : l.flatMap f = [] := by
  induction l with
  | nil => rfl
  | cons a t ih => simp [List.flatMap_cons, h a, ih]

theorem regExportMaxWorkers_pos (keys : List String) :
    1 ≤ regExportMaxWorkers keys := by
  unfold regExportMaxWorkers
  by_cases h : keys.isEmpty
  · simp [h]
  · have : keys ≠ [] := by
      intro he
      exact h (by simp [he])
    have hl : 0 < keys.length := List.length_pos.mpr this
    simp [h]
    omega

/-- C1 amended: with the dry-run flag set, run_robocopy and run_regexport
return exit code 0 without any effect, and copy_appdata_subdirs produces
an empty effect trace (no directory creation, no process) whenever its
pool is constructible; however reg_export, when it is not aborted by the
PsExec resolution, still performs exactly one filesystem write in a dry
run: the unconditional makedirs on the export destination directory.  No
subprocess effect appears anywhere. -/
theorem C1_amended_dryrun_effects :
    ∀ (opts addOpts xd xf : List String) (src dst : String)
      (launch : List String → Except String Int)
      (key destFile : String) (pp : Option String)
      (sl : String → Except String Int)
      (sr dr : String) (subdirs : List String)
      (mkdirs : String → Except String Unit) (order : List Nat)
      (keys : List String) (dstDir : String) (up : Bool)
      (cp : Option String) (fileOk : String → Bool) (found : Option String),
      run_robocopy opts src dst addOpts xd xf true launch = (0, []) ∧
      run_regexport key destFile true pp sl = (0, []) ∧
      copy_appdata_subdirs opts sr dr subdirs xd true mkdirs launch order =
        (if copyAppdataMaxWorkers subdirs = 0 then
          Except.error "ValueError: max_workers must be greater than 0"
        else
          Except.ok
            (as_completed_collect subdirs (fun _ => Except.ok 0) order, [])) ∧
      (reg_export keys dstDir up true cp fileOk found sl order =
          RegExportResult.aborted ∨
       reg_export keys dstDir up true cp fileOk found sl order =
          RegExportResult.completed
            (as_completed_collect keys (fun _ => Except.ok 0) order)
            [Effect.makeDirs (normpath dstDir)]) := by
  intro opts addOpts xd xf src dst launch key destFile pp sl sr dr subdirs
    mkdirs order keys dstDir up cp fileOk found
  refine ⟨rfl, rfl, ?_, ?_⟩
  · unfold copy_appdata_subdirs
    by_cases hw : copyAppdataMaxWorkers subdirs = 0
    · simp [hw]
    · simp only [hw, if_neg, ite_false]
      congr 1
      refine Prod.ext ?_ ?_
      · simp only
        rw [copySubdirTaskOutcome_dry]
      · simp only
        exact flatMap_nil_of_forall _ _ (fun _ => rfl)
  · unfold reg_export
    cases hres : resolvePsexec up cp fileOk found with
    | error e => exact Or.inl rfl
    | ok resolved =>
      right
      have hpos := regExportMaxWorkers_pos keys
      have hne : ¬ regExportMaxWorkers keys = 0 := by omega
      have hfm : keys.flatMap (fun p =>
          (run_regexport p (export_single_path_destination dstDir p) true
            resolved sl).2) = [] :=
        flatMap_nil_of_forall _ _ (fun _ => rfl)
      simp only [hne, if_neg, ite_false]
      rw [regExportTaskOutcome_dry, hfm]

/-- C3 amended: for a non-empty task list both dispatchers size the pool
as min(6, n), which is then at least 1; for the empty list reg_export
falls back to a single worker, so its dispatch never fails with a pool
ValueError, while copy_appdata_subdirs computes min(6, 0) = 0 workers and
its dispatch fails with the ThreadPoolExecutor ValueError. -/
theorem C3_amended_pool_sizes :
    ∀ (subdirs keys : List String),
      (subdirs ≠ [] →
        copyAppdataMaxWorkers subdirs = min 6 subdirs.length ∧
        1 ≤ copyAppdataMaxWorkers subdirs) ∧
      (keys ≠ [] →
        regExportMaxWorkers keys = min 6 keys.length ∧
        1 ≤ regExportMaxWorkers keys) ∧
      regExportMaxWorkers [] = 1 ∧
      copyAppdataMaxWorkers [] = 0 ∧
      (∀ (opts : List String) (sr dr : String) (xd : List String) (dry : Bool)
        (mkdirs : String → Except String Unit)
        (launch : List String → Except String Int) (order : List Nat),
        copy_appdata_subdirs opts sr dr [] xd dry mkdirs launch order =
          Except.error "ValueError: max_workers must be greater than 0") ∧
      (∀ (dstDir : String) (up dry : Bool) (cp : Option String)
        (fileOk : String → Bool) (found : Option String)
        (sl : String → Except String Int) (order : List Nat),
        reg_export keys dstDir up dry cp fileOk found sl order ≠
          RegExportResult.poolError) := by
  intro subdirs keys
  refine ⟨?_, ?_, rfl, rfl, ?_, ?_⟩
  · intro hne
    have hl : 0 < subdirs.length := List.length_pos.mpr hne
    refine ⟨rfl, ?_⟩
    unfold copyAppdataMaxWorkers
    omega
  · intro hne
    have hl : 0 < keys.length := List.length_pos.mpr hne
    have he : keys.isEmpty = false := by
      cases keys with
      | nil => exact absurd rfl hne
      | cons a t => rfl
    refine ⟨?_, ?_⟩
    · unfold regExportMaxWorkers
      simp [he]
    · exact regExportMaxWorkers_pos keys
  · intro opts sr dr xd dry mkdirs launch order
    rfl
  · intro dstDir up dry cp fileOk found sl order h
    unfold reg_export at h
    cases hres : resolvePsexec up cp fileOk found with
    | error e =>
      rw [hres] at h
      exact RegExportResult.noConfusion h
    | ok resolved =>
      rw [hres] at h
      have hpos := regExportMaxWorkers_pos keys
      have hne2 : ¬ regExportMaxWorkers keys = 0 := by omega
      simp only [hne2, if_neg, ite_false] at h
      exact RegExportResult.noConfusion h

/-- C4 counterexample: the access gate's success is not tied to the
target path becoming reachable.  In a run where the Explorer trigger
launches and its process exits immediately but the target path never
becomes reachable, prompt_user_to_authenticate reports success, while the
behaviour the claim describes (success exactly when the path becomes
reachable before the timeout) reports failure. -/
theorem C4_poll_target_counterexample :
    prompt_user_to_authenticate true (fun _ => true) 120 = true ∧
    prompt_success_spec true (fun _ => false) 120 = false :=
  ⟨rfl, by rfl⟩

theorem explorerWaitLoop_iff (exited : Nat → Bool) (timeout : Nat) :
    ∀ (fuel k : Nat), timeout + 1 = k + fuel →
      (explorerWaitLoop exited timeout k fuel = true ↔
        ∃ j, k ≤ j ∧ j ≤ timeout ∧ exited j = true) := by
  intro fuel
  induction fuel with
  | zero =>
    intro k hk
    constructor
    · intro h
      exact absurd h (by simp [explorerWaitLoop])
    · rintro ⟨j, hkj, hjt, _⟩
      exact absurd hjt (by omega)
  | succ fuel ih =>
    intro k hk
    simp only [explorerWaitLoop]
    by_cases hek : exited k = true
    · simp only [hek, if_true]
      constructor
      · intro _
        exact ⟨k, Nat.le_refl k, by omega, hek⟩
      · intro _
        trivial
    · simp only [hek, if_false, Bool.false_eq_true, ite_false]
      by_cases htk : timeout ≤ k
      · simp only [htk, if_true, ite_true]
        constructor
        · intro h
          exact absurd h (by simp)
        · rintro ⟨j, hkj, hjt, hje⟩
          have hjk : j = k := by omega
          rw [hjk] at hje
          exact absurd hje hek
      · simp only [htk, if_false, ite_false]
        rw [ih (k + 1) (by omega)]
        constructor
        · rintro ⟨j, h1, h2, h3⟩
          exact ⟨j, by omega, h2, h3⟩
        · rintro ⟨j, h1, h2, h3⟩
          have hjk : j ≠ k := by
            intro he
            rw [he] at h3
            exact hek h3
          exact ⟨j, by omega, h2, h3⟩

/-- C4 amended: after a failed reachability probe the gate launches the
Explorer trigger and then polls the EXPLORER PROCESS at one-second
intervals: it returns success exactly when the trigger launched and the
process terminates by the timeout; it returns failure when the timeout
elapses first, and a launch failure is immediate failure, not retried.
Reachability of the target path is not consulted inside the gate (the
caller re-probes it afterwards). -/
theorem C4_amended_process_poll :
    ∀ (launchOk : Bool) (exited : Nat → Bool) (timeout : Nat),
      prompt_user_to_authenticate launchOk exited timeout = true ↔
        (launchOk = true ∧ ∃ k, k ≤ timeout ∧ exited k = true) := by
  intro launchOk exited timeout
  cases launchOk with
  | false =>
    simp [prompt_user_to_authenticate]
  | true =>
    simp only [prompt_user_to_authenticate, if_true, true_and, ite_true]
    rw [explorerWaitLoop_iff exited timeout (timeout + 1) 0 (by omega)]
    constructor
    · rintro ⟨j, _, h2, h3⟩
      exact ⟨j, h2, h3⟩
    · rintro ⟨j, h2, h3⟩
      exact ⟨j, Nat.zero_le j, h2, h3⟩

/-- C6: any exception while creating or waiting on the external-tool
subprocess is caught inside the Task Runner and converted to the sentinel
exit code -1.  The embedded runners are total Lean functions, so no fault
can propagate past them; the theorem pins the returned value on every
launch fault for both run_robocopy and run_regexport. -/
theorem C6_launch_failure_sentinel :
    ∀ (opts addOpts xd xf : List String) (src dst : String)
      (launch : List String → Except String Int) (msg : String)
      (key destFile : String) (pp : Option String)
      (sl : String → Except String Int) (msg2 : String),
      (launch (build_robocopy_command src dst (opts ++ addOpts) xd xf) =
          Except.error msg →
        run_robocopy opts src dst addOpts xd xf false launch =
          (-1, [Effect.spawn (build_robocopy_command src dst (opts ++ addOpts) xd xf)])) ∧
      (sl (regexportCommand key destFile pp) = Except.error msg2 →
        run_regexport key destFile false pp sl =
          (-1, [Effect.spawnShell (regexportCommand key destFile pp)])) := by
  intro opts addOpts xd xf src dst launch msg key destFile pp sl msg2
  constructor
  · intro h
    unfold run_robocopy
    simp [h]
  · intro h
    unfold run_regexport
    simp [h]

theorem range_filterMap_get {α : Type} (l : List String) (g : String → α) :
    (List.range l.length).filterMap (fun i => (l.get? i).map g) = l.map g := by
  induction l with
  | nil => rfl
  | cons a t ih =>
    rw [List.length_cons, List.range_succ_eq_map, List.filterMap_cons,
      List.filterMap_map]
    have hcomp : ((fun i => ((a :: t).get? i).map g) ∘ Nat.succ) =
        (fun i => (t.get? i).map g) := funext fun _ => rfl
    rw [hcomp, ih]
    rfl

theorem as_completed_collect_perm (tasks : List String)
    (outcome : String → Except String Int) (order : List Nat)
    (h : order.Perm (List.range tasks.length)) :
    (as_completed_collect tasks outcome order).Perm
      (tasks.map (collectTask outcome)) := by
  have h2 := h.filterMap (fun i => (tasks.get? i).map (collectTask outcome))
  rw [range_filterMap_get tasks (collectTask outcome)] at h2
  exact h2

theorem collectTask_fst (outcome : String → Except String Int) (t : String) :
    (collectTask outcome t).1 = t := by
  unfold collectTask
  cases outcome t <;> rfl

theorem as_completed_collect_fst_perm (tasks : List String)
    (outcome : String → Except String Int) (order : List Nat)
    (h : order.Perm (List.range tasks.length)) :
    ((as_completed_collect tasks outcome order).map Prod.fst).Perm tasks := by
  have h2 := (as_completed_collect_perm tasks outcome order h).map Prod.fst
  rw [List.map_map] at h2
  have h3 : tasks.map (Prod.fst ∘ collectTask outcome) = tasks := by
    have hfun : (Prod.fst ∘ collectTask outcome) = id :=
      funext fun t => collectTask_fst outcome t
    rw [hfun, List.map_id]
  rw [h3] at h2
  exact h2

/-- Completeness of the report produced by a dispatch returning an
Except: on success, the collected entries are a permutation of one
converted entry per input task, and their identities are a permutation of
the input task list; failure of the dispatch itself refutes the
property. -/
def dispatchReportOk
    (res : Except String (List (String × TaskResult) × List Effect))
    (tasks : List String) (outcome : String → Except String Int) : Prop :=
  match res with
  | Except.ok (r, _) =>
    r.Perm (tasks.map (collectTask outcome)) ∧ (r.map Prod.fst).Perm tasks
  | Except.error _ => False

/-- The same report completeness for the reg_export outcome type. -/
def regReportOk (res : RegExportResult) (tasks : List String)
    (outcome : String → Except String Int) : Prop :=
  match res with
  | RegExportResult.completed r _ =>
    r.Perm (tasks.map (collectTask outcome)) ∧ (r.map Prod.fst).Perm tasks
  | _ => False

/-- C5: for every non-empty task set handed to a dispatch operation, and
every completion order of the futures, the collection contains exactly
one entry per input task, attributed to that task's identity -- the
entries are a permutation of the per-task converted results and the
collected identities are a permutation of the input list.  The last
conjunct pins the per-task fault conversion: a task that raises is
recorded as a fault entry under its own identity, and because every entry
is the image of its own task alone, one task's fault cannot alter a
sibling's entry. -/
theorem C5_report_complete :
    ∀ (opts : List String) (sr dr : String) (tasks : List String)
      (xd : List String) (dry : Bool) (mkdirs : String → Except String Unit)
      (launch : List String → Except String Int) (order : List Nat)
      (dstDir : String) (up : Bool) (cp : Option String)
      (fileOk : String → Bool) (found : Option String)
      (sl : String → Except String Int) (pp : Option String),
      tasks ≠ [] → order.Perm (List.range tasks.length) →
      dispatchReportOk
        (copy_appdata_subdirs opts sr dr tasks xd dry mkdirs launch order)
        tasks (copySubdirTaskOutcome opts sr dr xd dry mkdirs launch) ∧
      (resolvePsexec up cp fileOk found = Except.ok pp →
        regReportOk (reg_export tasks dstDir up dry cp fileOk found sl order)
          tasks (regExportTaskOutcome dstDir dry pp sl)) ∧
      (∀ (outcome : String → Except String Int) (t msg : String),
        outcome t = Except.error msg →
          collectTask outcome t = (t, TaskResult.fault msg)) := by
  intro opts sr dr tasks xd dry mkdirs launch order dstDir up cp fileOk found
    sl pp hne hperm
  have hl : 0 < tasks.length := List.length_pos.mpr hne
  refine ⟨?_, ?_, ?_⟩
  · have hw : ¬ copyAppdataMaxWorkers tasks = 0 := by
      unfold copyAppdataMaxWorkers
      omega
    unfold copy_appdata_subdirs
    simp only [hw, if_neg, ite_false]
    exact ⟨as_completed_collect_perm tasks _ order hperm,
      as_completed_collect_fst_perm tasks _ order hperm⟩
  · intro hres
    have hw : ¬ regExportMaxWorkers tasks = 0 := by
      have := regExportMaxWorkers_pos tasks
      omega
    unfold reg_export
    rw [hres]
    simp only [hw, if_neg, ite_false]
    exact ⟨as_completed_collect_perm tasks _ order hperm,
      as_completed_collect_fst_perm tasks _ order hperm⟩
  · intro outcome t msg h
    unfold collectTask
    rw [h]

theorem scan_file_removedOk (f : MotwFile)
    (h : (scan_file f).1 = FileReport.removedOk) :
    scan_file (scan_file f).2 = (FileReport.markerAbsent, (scan_file f).2) := by
  obtain ⟨name, ads, fault, removal⟩ := f
  by_cases hb : shortcut_ext_check name = true
  · cases ads <;> cases fault <;> rcases removal with _ | _ | d
    all_goals try cases d
    all_goals simp_all [scan_file, has_zone_identifier_ads,
      open_zone_identifier, removeAdsResult]
  · simp_all [scan_file]

/-- C9: the marker-removal scan is idempotent on the files it
successfully cleaned.  Whenever the first pass over an existing directory
reports a successful marker removal at some position, the second pass
over the resulting directory reports the marker as absent at that
position (the skip branch, which attempts no removal) and leaves the
file unchanged. -/
theorem C9_scan_idempotent :
    ∀ (files : List MotwFile) (i : Nat),
      (remove_mark_of_the_web_from_shortcuts true files).1.get? i =
        some FileReport.removedOk →
      (remove_mark_of_the_web_from_shortcuts true
          (remove_mark_of_the_web_from_shortcuts true files).2).1.get? i =
        some FileReport.markerAbsent ∧
      (remove_mark_of_the_web_from_shortcuts true
          (remove_mark_of_the_web_from_shortcuts true files).2).2.get? i =
        (remove_mark_of_the_web_from_shortcuts true files).2.get? i := by
  intro files i h
  simp only [remove_mark_of_the_web_from_shortcuts, if_true, ite_true,
    List.get?_map] at h ⊢
  rcases Option.map_eq_some'.mp h with ⟨f0, hget, hrep⟩
  rw [hget]
  have hscan := scan_file_removedOk f0 hrep
  constructor
  · simp [hscan]
  · simp [hscan]

/-- C10: when opening the Zone.Identifier stream raises an OS error other
than file-not-found (for example permission denied), the presence test
returns False, so the scan takes the skip branch for that file: it is
reported as having no marker, no removal is attempted and the file is
left unchanged, and that outcome is logged at info level, not as an
error. -/
theorem C10_open_oserror_skips :
    ∀ f : MotwFile, f.ads = true → f.openFault = true →
      has_zone_identifier_ads f = false ∧
      (shortcut_ext_check f.name = true →
        scan_file f = (FileReport.markerAbsent, f)) ∧
      reportLogsError FileReport.markerAbsent = false := by
  intro f hads hfault
  obtain ⟨name, ads, fault, removal⟩ := f
  simp only at hads hfault
  subst hads hfault
  refine ⟨rfl, ?_, rfl⟩
  intro hb
  simp [scan_file, has_zone_identifier_ads, open_zone_identifier, hb]

/-- Witness for C3: the pool-size facts evaluated on singleton task
lists. -/
theorem C3_amended_pool_sizes_witness :
    (copyAppdataMaxWorkers ["AppData\\Local\\Mozilla"] =
        min 6 (["AppData\\Local\\Mozilla"] : List String).length ∧
      1 ≤ copyAppdataMaxWorkers ["AppData\\Local\\Mozilla"]) ∧
    (regExportMaxWorkers ["HKEY_CURRENT_USER\\Network"] =
        min 6 (["HKEY_CURRENT_USER\\Network"] : List String).length ∧
      1 ≤ regExportMaxWorkers ["HKEY_CURRENT_USER\\Network"]) :=
  ⟨(C3_amended_pool_sizes ["AppData\\Local\\Mozilla"]
      ["HKEY_CURRENT_USER\\Network"]).1 (by decide),
   (C3_amended_pool_sizes ["AppData\\Local\\Mozilla"]
      ["HKEY_CURRENT_USER\\Network"]).2.1 (by decide)⟩

/-- Witness for C5: a two-task set where the second task faults in its
makedirs call, collected in reversed completion order. -/
theorem C5_report_complete_witness :
    dispatchReportOk
      (copy_appdata_subdirs [] "S" "D" ["alpha", "beta"] [] false
        (fun p => if p = "D\\beta" then Except.error "boom" else Except.ok ())
        (fun _ => Except.ok 0) [1, 0])
      ["alpha", "beta"]
      (copySubdirTaskOutcome [] "S" "D" [] false
        (fun p => if p = "D\\beta" then Except.error "boom" else Except.ok ())
        (fun _ => Except.ok 0)) ∧
    regReportOk
      (reg_export ["alpha", "beta"] "E" false false none (fun _ => false) none
        (fun _ => Except.ok 0) [1, 0])
      ["alpha", "beta"]
      (regExportTaskOutcome "E" false none (fun _ => Except.ok 0)) := by
  have h := C5_report_complete [] "S" "D" ["alpha", "beta"] [] false
    (fun p => if p = "D\\beta" then Except.error "boom" else Except.ok ())
    (fun _ => Except.ok 0) [1, 0] "E" false none (fun _ => false) none
    (fun _ => Except.ok 0) none (by decide) (by decide)
  exact ⟨h.1, h.2.1 rfl⟩

/-- Witness for C6: both runners on an environment whose every launch
raises FileNotFoundError. -/
theorem C6_launch_failure_sentinel_witness :
    run_robocopy [] "s" "d" [] [] [] false
        (fun _ => Except.error "FileNotFoundError") =
      (-1, [Effect.spawn ["robocopy", "\"s\"", "\"d\""]]) ∧
    run_regexport "k" "f" false none
        (fun _ => Except.error "FileNotFoundError") =
      (-1, [Effect.spawnShell "reg export \"k\" \"f\" /y"]) := by
  have h := C6_launch_failure_sentinel [] [] [] [] "s" "d"
    (fun _ => Except.error "FileNotFoundError") "FileNotFoundError" "k" "f" none
    (fun _ => Except.error "FileNotFoundError") "FileNotFoundError"
  exact ⟨h.1 rfl, h.2 rfl⟩

/-- Witness for C9: a one-file Desktop whose shortcut carries the marker
and whose removal succeeds on the first pass. -/
theorem C9_scan_idempotent_witness :
    (remove_mark_of_the_web_from_shortcuts true
        (remove_mark_of_the_web_from_shortcuts true
          [MotwFile.mk "link.url" true false RemovalBehavior.plainSuccess]).2).1.get? 0 =
      some FileReport.markerAbsent ∧
    (remove_mark_of_the_web_from_shortcuts true
        (remove_mark_of_the_web_from_shortcuts true
          [MotwFile.mk "link.url" true false RemovalBehavior.plainSuccess]).2).2.get? 0 =
      (remove_mark_of_the_web_from_shortcuts true
        [MotwFile.mk "link.url" true false RemovalBehavior.plainSuccess]).2.get? 0 :=
  C9_scan_idempotent
    [MotwFile.mk "link.url" true false RemovalBehavior.plainSuccess] 0 (by decide)

/-- Witness for C10: a shortcut file whose marker stream exists but whose
open raises a permission error. -/
theorem C10_open_oserror_skips_witness :
    has_zone_identifier_ads
        (MotwFile.mk "a.url" true true RemovalBehavior.plainSuccess) = false ∧
    scan_file (MotwFile.mk "a.url" true true RemovalBehavior.plainSuccess) =
      (FileReport.markerAbsent,
        MotwFile.mk "a.url" true true RemovalBehavior.plainSuccess) ∧
    reportLogsError FileReport.markerAbsent = false := by
  have h := C10_open_oserror_skips
    (MotwFile.mk "a.url" true true RemovalBehavior.plainSuccess) rfl rfl
  exact ⟨h.1, h.2.1 (by decide), h.2.2⟩

end ProfileTransferUtil
